import Mathlib

/-!
Verification of the RSS-to-Raindrop feed pipeline.

This file gives a shallow embedding, in Lean 4, of the core logic of the
repository: date normalization (`src/utils.py`), the article filter
(`src/article_filter.py`), the per-feed processing pipeline
(`src/rss_analyzer.py`) and the persisted feed state (`src/state.py`).
External libraries (the RFC-2822 and ISO-8601 parsers, the tokenizer, the
LLM completion call, the JSON decoder, the DynamoDB table) are modelled as
oracle functions supplied through environment structures; everything the
repository itself computes is translated into executable Lean definitions.
-/

/-- A Python `datetime`: `wall` is the wall-clock reading in seconds, and
`tz` the UTC offset in seconds carried by `tzinfo` (`none` = naive).
`datetime.replace(tzinfo=utc)` keeps the wall-clock reading and sets the
offset, which this representation mirrors. -/
structure PyDateTime where
  wall : Int
  tz : Option Int
deriving DecidableEq, Repr

/-- The absolute instant of an aware datetime (what Python compares two
aware datetimes by): wall-clock reading minus UTC offset. -/
def instVal (d : PyDateTime) : Int :=
  d.wall - d.tz.getD 0

/-- `utils.ensure_timezone`: assign UTC to a naive datetime, pass through
`None` and aware datetimes. -/
def ensure_timezone : Option PyDateTime → Option PyDateTime
  | none => none
  | some d => if d.tz = none then some { d with tz := some 0 } else some d

/-- Oracles for the external date parsers used by `utils.py`:
`rfc2822` models `email.utils.parsedate_to_datetime` (`none` = the call
raised), `iso` models `datetime.fromisoformat` (`none` = `ValueError`),
`tupleToDt` models `datetime(*t[:6])` on a feedparser time tuple (`none` =
the constructor raised; on success the result is a naive wall-clock
reading, which the `Int` conveys). -/
structure ParseEnv where
  rfc2822 : String → Option PyDateTime
  iso : String → Option PyDateTime
  tupleToDt : List Int → Option Int

/-- `utils.parse_date`: try RFC-2822 first, then ISO-8601 after replacing
`Z` with `+00:00`; each success goes through `ensure_timezone`. -/
def parse_date (env : ParseEnv) (s : String) : Option PyDateTime :=
  match env.rfc2822 s with
  | some d => ensure_timezone (some d)
  | none =>
    match env.iso (s.replace "Z" "+00:00") with
    | some d => ensure_timezone (some d)
    | none => none

/-- A parsed feed entry: the loosely-typed field bag the feed parser
produces, restricted to the fields the core reads. `none` models an
absent field. -/
structure Entry where
  link : Option String := none
  title : Option String := none
  summary : Option String := none
  published_parsed : Option (List Int) := none
  published : Option String := none
  pubDate : Option String := none
  created : Option String := none
  createDate : Option String := none
  updated : Option String := none
deriving DecidableEq, Repr

/-- The string-field loop of `utils.get_article_date`: fields are tried in
list order; a falsy (absent or empty) value is skipped, a value that fails
to parse is silently skipped, the first parse success is returned. -/
def try_date_fields (env : ParseEnv) : List (Option String) → Option PyDateTime
  | [] => none
  | f :: rest =>
    match f with
    | some v =>
      if v = "" then try_date_fields env rest
      else
        match parse_date env v with
        | some d => some d
        | none => try_date_fields env rest
    | none => try_date_fields env rest

/-- `utils.get_article_date`: first the feedparser `published_parsed` time
tuple (truthy, i.e. non-empty, and convertible by `datetime(*t[:6])`,
in which case the naive result is assigned UTC); on any failure fall
through to the string fields `published`, `pubDate`, `created`,
`createDate`, `updated`, in that order. -/
def get_article_date (env : ParseEnv) (a : Entry) : Option PyDateTime :=
  let viaTuple : Option PyDateTime :=
    match a.published_parsed with
    | some t =>
      if t = [] then none
      else
        match env.tupleToDt (t.take 6) with
        | some w => ensure_timezone (some { wall := w, tz := none })
        | none => none
    | none => none
  match viaTuple with
  | some d => some d
  | none =>
    try_date_fields env [a.published, a.pubDate, a.created, a.createDate, a.updated]

/-- Sort key used by `_get_new_articles`: the (always aware at that point)
`normalized_date` of an entry, as an absolute instant. Entries reaching
the sort are guaranteed to have a date; the default is never exercised
there. -/
def entry_key (env : ParseEnv) (a : Entry) : Int :=
  instVal ((get_article_date env a).getD { wall := 0, tz := none })

/-- The filter of `_get_new_articles`: keep an entry iff its
`normalized_date` resolves and is strictly newer than the (already
timezone-ensured) high-water mark; keep every dated entry when there is
no mark. -/
def keep_entry (env : ParseEnv) (last : Option PyDateTime) (a : Entry) : Bool :=
  match get_article_date env a with
  | none => false
  | some d =>
    match last with
    | none => true
    | some l => decide (instVal l < instVal d)

/-- The descending-by-date order used to sort new articles
(`sort(key=..., reverse=True)`); a stable sort under this relation is
exactly Python's stable descending sort. -/
def newer_first (env : ParseEnv) (a b : Entry) : Prop :=
  entry_key env b ≤ entry_key env a

instance (env : ParseEnv) : DecidableRel (newer_first env) :=
  fun a b => inferInstanceAs (Decidable (entry_key env b ≤ entry_key env a))

/-- `rss_analyzer._get_new_articles`: ensure the stored mark is
timezone-aware, drop undated entries, keep entries strictly newer than
the mark (all dated entries when no mark), and sort newest first. -/
def get_new_articles (env : ParseEnv) (entries : List Entry)
    (last_pub_date : Option PyDateTime) : List Entry :=
  let last := ensure_timezone last_pub_date
  let dated := entries.filter (keep_entry env last)
  dated.insertionSort (newer_first env)

/-- A JSON value as `json.loads` can produce it, carrying just enough
structure for the checks the filter performs (truthiness and comparison
with the label strings); containers are abbreviated to their size. -/
inductive JVal where
  | str (s : String)
  | num (n : Int)
  | bool (b : Bool)
  | null
  | arr (n : Nat)
  | obj (n : Nat)
deriving DecidableEq, Repr

/-- Python truthiness of a JSON value. -/
def jtruthy : JVal → Bool
  | .str s => !(s == "")
  | .num n => !(n == 0)
  | .bool b => b
  | .null => false
  | .arr n => !(n == 0)
  | .obj n => !(n == 0)

/-- Truthiness of `result.get(field)` (`none` = absent field = `None`). -/
def opt_truthy : Option JVal → Bool
  | none => false
  | some v => jtruthy v

/-- `collection in ["read", "maybe", "skip"]`: only equal-valued strings
are members. -/
def labels_ok : JVal → Bool
  | .str s => s == "read" || s == "maybe" || s == "skip"
  | _ => false

/-- Rendering of a JSON value inside an f-string (`str`-like); containers
are abbreviated, which no claim depends on. -/
def py_str_of : JVal → String
  | .str s => s
  | .num n => toString n
  | .bool b => if b then "True" else "False"
  | .null => "None"
  | .arr _ => "[...]"
  | .obj _ => "\x7b...\x7d"

/-- The top-level value `json.loads` returned: either a dictionary (of
which only the `collection` and `reason` keys are ever read) or a
non-dictionary value. -/
inductive PyObj where
  | dict (collection : Option JVal) (reason : Option JVal)
  | nondict
deriving DecidableEq, Repr

/-- Oracles for the external services of `article_filter.py`:
`complete` models the chat-completion call (`.error` = any exception, the
payload being `str(e)`; `.ok` carries `message.content`, possibly `None`),
`jsonLoads` models `json.loads` (`.error` = `JSONDecodeError`, payload
`str(e)`), `encode`/`decode` model the tiktoken encoding. -/
structure LLMEnv where
  complete : String → Except String (Option String)
  jsonLoads : String → Except String PyObj
  encode : String → List Nat
  decode : List Nat → String

/-- The message produced when `message.content` is `None` and `.strip()`
is attempted on it; the outer exception handler formats it. -/
def attr_error_msg : String :=
  "NoneType object has no attribute strip"

/-- One configured persona (name plus interests), as read from config. -/
structure Persona where
  name : String
  interests : List String
deriving DecidableEq, Repr

/-- The `ArticleFilter` object after construction. `max_age_years` stands
for the configured years (the source stores `timedelta(days=max_age_years
* 365)`; the conversion is applied at each use below). `hasClient` is
whether `self.client` was set, `openai_model` the stored model name,
`encoding` the tokenizer handle (opaque). -/
structure ArticleFilter where
  max_age_years : ℚ
  personas : List Persona
  priority_topics : List String
  skip_criteria : List String
  collection_rules : List (String × List String)
  hasClient : Bool
  openai_model : Option String
  encoding : Nat

/-- `self.max_age` in seconds: `timedelta(days = max_age_years * 365)`,
365 days per year, 86400 seconds per day, no leap-year adjustment. -/
def max_age_seconds (max_age_years : ℚ) : ℚ :=
  max_age_years * 365 * 86400

/-- `self.max_age.days`: the day component of the stored timedelta, i.e.
the floor of `max_age_years * 365`. Used only in the too-old reason. -/
def max_age_days (max_age_years : ℚ) : Int :=
  ⌊max_age_years * 365⌋

/-- `ArticleFilter._is_too_old`: `now - pub_date > self.max_age`, a strict
comparison on the timedelta between two aware datetimes. -/
def is_too_old (max_age_years : ℚ) (now pub : PyDateTime) : Bool :=
  decide (max_age_seconds max_age_years < ((instVal now - instVal pub : Int) : ℚ))

/-- Truthiness of an optional string (Python `None` and `""` are falsy). -/
def opt_str_truthy : Option String → Bool
  | none => false
  | some s => !(s == "")

/-- `ArticleFilter._get_article_content`: title plus summary, with empty
defaults. -/
def get_article_content (a : Entry) : String :=
  "Title: " ++ a.title.getD "" ++ "\n" ++ "Description: " ++ a.summary.getD "" ++ "\n"

/-- `"sep".join(parts)`. -/
def str_join (sep : String) : List String → String
  | [] => ""
  | x :: xs => xs.foldl (fun acc y => acc ++ sep ++ y) x

/-- The personas section of the prompt template. -/
def personas_text (ps : List Persona) : String :=
  ps.foldl
    (fun acc p =>
      acc ++ "\n    " ++ p.name ++ ":\n      - " ++ str_join "\n      - " p.interests)
    ""

/-- The collection-rules section of the prompt template. -/
def collection_rules_text (rs : List (String × List String)) : String :=
  rs.foldl
    (fun acc r =>
      acc ++ "\n    " ++ r.1 ++ ":\n      - " ++ str_join "\n      - " r.2)
    ""

/-- The fixed prompt text before the article-content placeholder, after
the f-string has rendered the configured sections. -/
def prompt_head (f : ArticleFilter) : String :=
  "Analyze this article content and determine the most appropriate collection based on the following criteria:\n\n1. User Personas and Interests:"
    ++ personas_text f.personas
    ++ "\n\n2. Priority Topics:\n- "
    ++ str_join "\n- " f.priority_topics
    ++ "\n\n3. Skip Criteria:\n- "
    ++ str_join "\n- " f.skip_criteria
    ++ "\n\n4. Collection Rules:"
    ++ collection_rules_text f.collection_rules
    ++ "\n\nImportant notes:\n1. Articles matching skip criteria should always go to \"skip\" collection\n2. When in doubt between read and maybe, prefer \"maybe\" to avoid noise in the read collection\n3. Consider both technical depth and practical applicability\n\nArticle content:\n"

/-- The fixed prompt text after the article-content placeholder (the
doubled braces of the source template render as literal braces). -/
def prompt_tail : String :=
  "\n\nYou must respond with a valid JSON object in this exact format:\n\x7b\n    \"collection\": \"COLLECTION\",\n    \"reason\": \"REASON\"\n\x7d\n\nWhere:\n- COLLECTION must be exactly one of these values: \"read\", \"maybe\", or \"skip\" (including the quotes)\n- REASON should be a brief explanation of why this collection was chosen\n\nDo not include any other text in your response, only the JSON object.\n\nExample response:\n\x7b\n    \"collection\": \"read\",\n    \"reason\": \"Directly addresses cloud security automation with novel insights and practical implementation details\"\n\x7d\n\nResponse:"

/-- `tokens[:m]` for an `int` slice bound `m` (negative bounds count from
the end, as in Python). -/
def py_slice_to (l : List Nat) (m : Int) : List Nat :=
  if 0 ≤ m then l.take m.toNat else l.take (l.length - (-m).toNat)

/-- `128000 - 4000`: the context window minus the fixed reservation. -/
def max_tokens_budget : Int := 128000 - 4000

/-- `ArticleFilter._truncate_to_token_limit`: straight token-count cut. -/
def truncate_to_token_limit (env : LLMEnv) (text : String) (max_tokens : Int) : String :=
  let tokens := env.encode text
  if (tokens.length : Int) ≤ max_tokens then text
  else env.decode (py_slice_to tokens max_tokens)

/-- `ArticleFilter._build_analysis_prompt`: count the tokens of the
template rendered with empty content, truncate the article content to the
residual budget, render the template with the truncated content. -/
def build_analysis_prompt (env : LLMEnv) (f : ArticleFilter) (content : String) : String :=
  let template_tokens : Int := (env.encode (prompt_head f ++ "" ++ prompt_tail)).length
  let article_max_tokens := max_tokens_budget - template_tokens
  let truncated := truncate_to_token_limit env content article_max_tokens
  prompt_head f ++ truncated ++ prompt_tail

/-- `ArticleFilter._analyze_content`: build the prompt, call the
completion, strip the raw content, parse it as JSON (the source's second
`json.loads` attempt re-parses the same stripped string, so a parse
failure still lands in the `JSONDecodeError` handler), validate the
dictionary shape, and fall back to `("maybe", reason)` on every failure;
the reason accompanying a disposition is the raw JSON value the model
returned (a Python value, not necessarily a string). -/
def analyze_content (env : LLMEnv) (f : ArticleFilter) (a : Entry) : String × JVal :=
  let content := get_article_content a
  if content = "" then ("maybe", .str "No content available for analysis")
  else
    let prompt := build_analysis_prompt env f content
    match env.complete prompt with
    | .error e => ("maybe", .str ("Error during analysis: " ++ e))
    | .ok none => ("maybe", .str ("Error during analysis: " ++ attr_error_msg))
    | .ok (some raw) =>
      match env.jsonLoads raw.trim with
      | .error e => ("maybe", .str ("Error parsing analysis response: " ++ e))
      | .ok .nondict => ("maybe", .str "Invalid response format from analysis")
      | .ok (.dict collection reason) =>
        if !opt_truthy collection then
          ("maybe", .str "Missing collection in analysis response")
        else if !opt_truthy reason then
          ("maybe", .str "Missing reason in analysis response")
        else if !labels_ok (collection.getD .null) then
          ("maybe", .str ("Invalid collection value: " ++ py_str_of (collection.getD .null)))
        else
          (match collection.getD .null with
            | .str s => s
            | _ => "", reason.getD .null)

/-- `ArticleFilter.analyze_article`: missing (falsy) link, then
unresolvable date, then the too-old check, then the semantic classifier
when `self.client and self.openai_model` holds, else the no-analysis
default. -/
def analyze_article (f : ArticleFilter) (penv : ParseEnv) (lenv : LLMEnv)
    (now : PyDateTime) (a : Entry) : String × JVal :=
  if !opt_str_truthy a.link then
    ("maybe", .str "Missing required link field")
  else
    match get_article_date penv a with
    | none => ("maybe", .str "Could not determine publication date")
    | some pub_date =>
      if is_too_old f.max_age_years now pub_date then
        ("skip", .str ("Article is older than " ++ toString (max_age_days f.max_age_years) ++ " days"))
      else if f.hasClient && opt_str_truthy f.openai_model then
        analyze_content lenv f a
      else
        ("maybe", .str "No content analysis available")

/-- The `openai_config` dictionary handed to `ArticleFilter.__init__`:
`api_key` is the value of the `api_key` key (`none` = absent or `None`);
`model_entry` distinguishes an absent `model` key (`none`, so
`.get('model', 'gpt-4')` yields the default) from a present one whose
value may itself be `None`. -/
structure OpenAICfg where
  api_key : Option String
  model_entry : Option (Option String)
deriving DecidableEq, Repr

/-- `d.get(key, default)` for the `model` entry. -/
def dict_get_default (e : Option (Option String)) (dflt : String) : Option String :=
  match e with
  | none => some dflt
  | some v => v

/-- Oracle for `tiktoken.encoding_for_model`, which is called with
`self.openai_model : Optional[str]`; `.error` models the lookup raising
(as it does on a `None` model name, where the prefix scan attempts
attribute access on `None`). -/
structure FilterEnv where
  encodingForModel : Option String → Except String Nat

/-- The client/model part of `ArticleFilter.__init__`: the client is set
iff a truthy `api_key` is present, in which case the model name is
`openai_config.get('model', 'gpt-4')`; otherwise both are `None`. -/
def openai_model_of (openai_config : Option OpenAICfg) : Bool × Option String :=
  match openai_config with
  | some oc =>
    if opt_str_truthy oc.api_key then (true, dict_get_default oc.model_entry "gpt-4")
    else (false, none)
  | none => (false, none)

/-- `ArticleFilter.__init__`: set client and model from the config, then
unconditionally run the tokenizer lookup on the model name; a lookup
failure propagates as a constructor exception (`.error`). -/
def filter_init (fenv : FilterEnv) (max_age_years : ℚ) (personas : List Persona)
    (priority_topics : List String) (skip_criteria : List String)
    (collection_rules : List (String × List String))
    (openai_config : Option OpenAICfg) : Except String ArticleFilter :=
  match fenv.encodingForModel (openai_model_of openai_config).2 with
  | .error e => .error e
  | .ok enc =>
      .ok { max_age_years, personas, priority_topics, skip_criteria, collection_rules,
            hasClient := (openai_model_of openai_config).1,
            openai_model := (openai_model_of openai_config).2, encoding := enc }

/-- Configuration of the pipeline around one feed: the configured
collection names in dictionary (insertion) order, the skip-retention
flag `raindrop.save_skipped` (default applied), and the batch size. -/
structure RunCfg where
  collections : List String
  save_skipped : Bool
  batch_size : Nat
deriving DecidableEq, Repr

/-- Oracles for the per-article and per-collection effects inside
`_process_article_batch`: `classify` is the result of
`article_filter.analyze_article` (`none` = the analysis raised, caught at
the article boundary; the pair is the collection and reason values, both
arbitrary Python values as far as the pipeline is concerned), `fileOk`
is whether `raindrop_client.add_bookmarks` for a collection succeeds,
`shutdown` the cooperative cancellation flag polled before batch `i`. -/
structure RunEnv where
  classify : Entry → Option (JVal × JVal)
  fileOk : String → Bool
  shutdown : Nat → Bool

/-- Whether an article lands in the group of collection `c`: its analysis
succeeded, returned a truthy string collection (the falsy/type checks of
`_process_article_batch`), and that string is `c`. Articles whose
collection is not configured fall into no group. -/
def goes_to (env : RunEnv) (c : String) (a : Entry) : Bool :=
  match env.classify a with
  | some (.str s, _) => !(s == "") && s == c
  | _ => false

/-- The filing loop of `_process_article_batch`, returning the list of
articles actually filed: per configured collection, an empty group is
skipped, the skip group is dropped when `save_skipped` is disabled, and a
failing bookmark call files (and counts) nothing for that collection.
The returned count of the source is the length of this list. -/
def batch_filed (cfg : RunCfg) (env : RunEnv) (batch : List Entry) : List Entry :=
  (cfg.collections.map (fun c =>
    let group := batch.filter (goes_to env c)
    if group.isEmpty then []
    else if c == "skip" && !cfg.save_skipped then []
    else if env.fileOk c then group
    else [])).flatten

/-- Python `max(a, b)` on two aware datetimes (first argument wins a
tie). -/
def py_max2 (a b : PyDateTime) : PyDateTime :=
  if instVal a < instVal b then b else a

/-- Python `max(list)` on aware datetimes (earliest occurrence wins a
tie); `none` only on the empty list, which the source never reaches. -/
def py_list_max : List PyDateTime → Option PyDateTime
  | [] => none
  | x :: xs => some (xs.foldl (fun m y => if instVal m < instVal y then y else m) x)

/-- The `normalized_date` an entry carries in the batch loop (entries
there always have one; the default is never exercised). -/
def entry_date (env : ParseEnv) (a : Entry) : PyDateTime :=
  (get_article_date env a).getD { wall := 0, tz := none }

/-- `_batch_articles` with positive batch size, on fuel. -/
def batch_articles_aux (bs : Nat) : Nat → List Entry → List (List Entry)
  | 0, _ => []
  | _, [] => []
  | fuel + 1, l => l.take bs :: batch_articles_aux bs fuel (l.drop bs)

/-- `rss_analyzer._batch_articles`: contiguous slices of `batch_size`
articles (the source presumes a positive batch size; zero is mapped to no
batches). -/
def batch_articles (bs : Nat) (l : List Entry) : List (List Entry) :=
  if bs = 0 then [] else batch_articles_aux bs l.length l

/-- The batch loop of `_process_single_feed`: before each batch poll the
shutdown flag (stopping consumption when set), file the batch, and — when
the batch filed at least one article — fold the maximum `normalized_date`
of ALL articles of that batch (the source computes `batch_dates` from the
whole batch, not from the filed articles) into the running latest date.
Returns the filed articles of the run and the candidate high-water
mark. -/
def run_batches (cfg : RunCfg) (renv : RunEnv) (penv : ParseEnv) :
    List (List Entry) → Nat → List Entry → Option PyDateTime →
    List Entry × Option PyDateTime
  | [], _, filed, latest => (filed, latest)
  | b :: rest, i, filed, latest =>
    if renv.shutdown i then (filed, latest)
    else
      let bf := batch_filed cfg renv b
      let latest' :=
        if 0 < bf.length then
          match py_list_max (b.map (entry_date penv)) with
          | some max_date => some (match latest with
            | none => max_date
            | some l => py_max2 max_date l)
          | none => latest
        else latest
      run_batches cfg renv penv rest (i + 1) (filed ++ bf) latest'

/-- The filed-articles/latest-date outcome of one feed run, starting from
the diffed new-article list split into batches. -/
def feed_run_core (cfg : RunCfg) (renv : RunEnv) (penv : ParseEnv)
    (entries : List Entry) (last : Option PyDateTime) : List Entry × Option PyDateTime :=
  run_batches cfg renv penv
    (batch_articles cfg.batch_size (get_new_articles penv entries last)) 0 [] none

/-- `_process_single_feed` after fetch/parse: compute the new articles
(returning with no state write when the feed has no entries or nothing is
new), run the batch loop, and return the arguments of the
`update_feed_state` call — `none` when the state is not written (the
source writes only when `total_processed > 0` and a latest date exists;
datetimes are always truthy). -/
def process_single_feed_update (cfg : RunCfg) (renv : RunEnv) (penv : ParseEnv)
    (entries : List Entry) (last : Option PyDateTime) : Option (PyDateTime × Nat) :=
  if entries.isEmpty then none
  else if (get_new_articles penv entries last).isEmpty then none
  else
    let r := feed_run_core cfg renv penv entries last
    match r.2 with
    | some latest => if 0 < r.1.length then some (latest, r.1.length) else none
    | none => none

/-- The persisted per-feed record (`state.py`, DynamoDB item): the
high-water mark and write instant are stored as ISO strings, the count as
a number; every attribute may be absent. -/
structure FeedRecord where
  last_pub_date : Option String
  last_processed : Option String
  processed_count : Option Int
deriving DecidableEq, Repr

/-- Oracles for the state backend: `fromIso` models
`datetime.fromisoformat` (`none` = it raised), `isoformat` the inverse
rendering. -/
structure StateEnv where
  fromIso : String → Option PyDateTime
  isoformat : PyDateTime → String

/-- Oracle for the DynamoDB table read: `.error` models a `ClientError`
from `get_item`, `.ok none` a response without an `Item` (never-seen
feed), `.ok (some r)` a stored record. -/
structure TableEnv where
  get_item : String → Except String (Option FeedRecord)

/-- `StateManager.get_feed_state`: a `ClientError` and an absent item both
yield the empty state (`none` models the empty dict). -/
def get_feed_state (tenv : TableEnv) (feed_url : String) : Option FeedRecord :=
  match tenv.get_item feed_url with
  | .error _ => none
  | .ok item => item

/-- The date-extraction step of `StateManager.get_last_pub_date` on an
already-read state: a falsy stored value yields `None`, and a stored
string `fromisoformat` cannot parse yields `None` instead of raising. -/
def state_last_pub_date (senv : StateEnv) (st : Option FeedRecord) : Option PyDateTime :=
  match st with
  | none => none
  | some r =>
    match r.last_pub_date with
    | none => none
    | some s => if s = "" then none else senv.fromIso s

/-- `StateManager.get_last_pub_date`. -/
def get_last_pub_date (tenv : TableEnv) (senv : StateEnv) (feed_url : String) :
    Option PyDateTime :=
  state_last_pub_date senv (get_feed_state tenv feed_url)

/-- The timezone coercion of `StateManager.update_feed_state`: a naive
date is assigned UTC before persisting. -/
def coerce_aware (d : PyDateTime) : PyDateTime :=
  if d.tz = none then { d with tz := some 0 } else d

/-- `StateManager.update_feed_state`: coerce the date, add the run's
count to the stored cumulative count (missing attribute defaults to 0),
and write all three attributes. -/
def update_feed_state (senv : StateEnv) (st : Option FeedRecord)
    (last_pub_date : PyDateTime) (processed_count : Nat) (now : PyDateTime) : FeedRecord :=
  let lpd := coerce_aware last_pub_date
  let total := (match st with
    | some r => r.processed_count.getD 0
    | none => 0) + (processed_count : Int)
  { last_pub_date := some (senv.isoformat lpd),
    last_processed := some (senv.isoformat now),
    processed_count := some total }

/-- One run of `_process_single_feed` as a transformer of the feed's
persisted record: read the stored mark, process, and either leave the
record untouched (no articles filed) or write the updated record. -/
def run_feed (cfg : RunCfg) (renv : RunEnv) (penv : ParseEnv) (senv : StateEnv)
    (entries : List Entry) (st : Option FeedRecord) (now : PyDateTime) :
    Option FeedRecord :=
  let last := state_last_pub_date senv st
  match process_single_feed_update cfg renv penv entries last with
  | none => st
  | some (lpd, cnt) => some (update_feed_state senv st lpd cnt now)

/-- The failure modes of the semantic classification step enumerated by
the fallback contract: completion exception, `None` message content,
JSON parse failure, non-dictionary value, missing/empty collection,
missing/empty reason, collection outside the label set. -/
def classifier_failure (env : LLMEnv) (f : ArticleFilter) (a : Entry) : Prop :=
  let prompt := build_analysis_prompt env f (get_article_content a)
  (∃ e, env.complete prompt = .error e)
  ∨ env.complete prompt = .ok none
  ∨ (∃ raw, env.complete prompt = .ok (some raw) ∧
      ((∃ e, env.jsonLoads raw.trim = .error e)
       ∨ env.jsonLoads raw.trim = .ok .nondict
       ∨ (∃ c r, env.jsonLoads raw.trim = .ok (.dict c r) ∧
          (opt_truthy c = false ∨ opt_truthy r = false
           ∨ labels_ok (c.getD .null) = false))))

/-- Fixture: a parse environment giving dates to the strings `d200` and
`d100` through the RFC-2822 oracle. -/
def penvX : ParseEnv where
  rfc2822 := fun s =>
    if s = "d200" then some { wall := 200, tz := some 0 }
    else if s = "d100" then some { wall := 100, tz := some 0 }
    else none
  iso := fun _ => none
  tupleToDt := fun _ => none

/-- Fixture: an entry dated 200. -/
def e200 : Entry := { link := some "L1", published := some "d200" }

/-- Fixture: an entry dated 100. -/
def e100 : Entry := { link := some "L2", published := some "d100" }

/-- Fixture: three-way collection config with skip retention disabled. -/
def cfgX : RunCfg where
  collections := ["read", "maybe", "skip"]
  save_skipped := false
  batch_size := 5

/-- Fixture: state oracles rendering a date as its instant value. -/
def senvX : StateEnv where
  fromIso := fun _ => none
  isoformat := fun d => toString (instVal d)

/-- Fixture: run environment classifying `e200` as skip and everything
else as read, with all bookmark calls succeeding and no shutdown. -/
def renvC1 : RunEnv where
  classify := fun a =>
    if a = e200 then some (.str "skip", .str "w1") else some (.str "read", .str "w2")
  fileOk := fun _ => true
  shutdown := fun _ => false

/-- Fixture: run environment classifying every article as skip. -/
def renvSkip : RunEnv where
  classify := fun _ => some (.str "skip", .str "w")
  fileOk := fun _ => true
  shutdown := fun _ => false

/-- Fixture: the run instant 999 UTC. -/
def nowX : PyDateTime := { wall := 999, tz := some 0 }

/-- Fixture: a trivial LLM environment whose completion call raises. -/
def lenvErr : LLMEnv where
  complete := fun _ => .error "boom"
  jsonLoads := fun _ => .ok .nondict
  encode := fun _ => []
  decode := fun _ => ""

/-- Fixture: a filter with no configured client. -/
def f0 : ArticleFilter where
  max_age_years := 1
  personas := []
  priority_topics := []
  skip_criteria := []
  collection_rules := []
  hasClient := false
  openai_model := none
  encoding := 0

/-- Fixture: an entry with no fields. -/
def a0 : Entry := {}

/-- Fixture: a table read that always fails with a `ClientError`. -/
def tenvErr : TableEnv where
  get_item := fun _ => .error "ClientError"

/-- Fixture: a tokenizer lookup failing on falsy model names, as the real
lookup does. -/
def fenv0 : FilterEnv where
  encodingForModel := fun m =>
    match m with
    | none => .error "AttributeError"
    | some s => if s = "" then .error "KeyError" else .ok 1

/-- Fixture: a stored feed record. -/
def rec0 : FeedRecord where
  last_pub_date := none
  last_processed := some "prior"
  processed_count := some 7

/-- Fixture: an entry carrying both a feed-library time tuple and a
conflicting `pubDate` string. -/
def entryT : Entry where
  link := some "L3"
  published_parsed := some [1, 2, 3, 4, 5, 6, 7]
  pubDate := some "d100"

/-- Fixture: a parse environment whose tuple conversion succeeds on the
six leading components of `entryT`'s tuple and whose RFC-2822 oracle
parses `d100`. -/
def penvT : ParseEnv where
  rfc2822 := fun s => if s = "d100" then some { wall := 100, tz := some 0 } else none
  iso := fun _ => none
  tupleToDt := fun t => if t = [1, 2, 3, 4, 5, 6] then some 500 else none

theorem ensure_timezone_aware (d d' : PyDateTime)
    (h : ensure_timezone (some d) = some d') : d'.tz.isSome := by
  by_cases hd : d.tz = none
  · simp [ensure_timezone, hd] at h
    subst h
    simp
  · simp [ensure_timezone, hd] at h
    subst h
    cases hx : d.tz with
    | none => exact absurd hx hd
    | some o => simp

theorem parse_date_aware (env : ParseEnv) (s : String) (d : PyDateTime)
    (h : parse_date env s = some d) : d.tz.isSome := by
  unfold parse_date at h
  cases h1 : env.rfc2822 s with
  | some x =>
    rw [h1] at h
    exact ensure_timezone_aware x d h
  | none =>
    rw [h1] at h
    cases h2 : env.iso (s.replace "Z" "+00:00") with
    | some x =>
      rw [h2] at h
      exact ensure_timezone_aware x d h
    | none =>
      rw [h2] at h
      exact absurd h (by simp)

theorem try_date_fields_aware (env : ParseEnv) (fields : List (Option String))
    (d : PyDateTime) (h : try_date_fields env fields = some d) : d.tz.isSome := by
  induction fields with
  | nil => simp [try_date_fields] at h
  | cons f rest ih =>
    cases f with
    | none =>
      rw [try_date_fields] at h
      exact ih h
    | some v =>
      rw [try_date_fields] at h
      by_cases hv : v = ""
      · rw [if_pos hv] at h
        exact ih h
      · rw [if_neg hv] at h
        cases hp : parse_date env v with
        | some x =>
          rw [hp] at h
          cases h
          exact parse_date_aware env v d hp
        | none =>
          rw [hp] at h
          exact ih h

theorem get_article_date_aware (env : ParseEnv) (a : Entry) (d : PyDateTime)
    (h : get_article_date env a = some d) : d.tz.isSome := by
  unfold get_article_date at h
  cases hp : a.published_parsed with
  | none =>
    simp only [hp] at h
    exact try_date_fields_aware env _ d h
  | some t =>
    simp only [hp] at h
    by_cases ht : t = []
    · simp only [if_pos ht] at h
      exact try_date_fields_aware env _ d h
    · simp only [if_neg ht] at h
      cases hc : env.tupleToDt (t.take 6) with
      | some w =>
        simp only [hc] at h
        cases he : ensure_timezone (some { wall := w, tz := none }) with
        | none =>
          simp only [he] at h
          exact try_date_fields_aware env _ d h
        | some x =>
          simp only [he] at h
          cases h
          exact ensure_timezone_aware _ _ he
      | none =>
        simp only [hc] at h
        exact try_date_fields_aware env _ d h

/-- Claim C8: every instant produced by date normalization is
timezone-aware: `ensure_timezone` returns aware datetimes, so do
`parse_date` and `get_article_date`, and the coercion applied by
`update_feed_state` before persisting always yields an aware datetime —
a `normalized_date` is never a naive datetime. -/
theorem date_normalization_always_aware :
    (∀ d d', ensure_timezone (some d) = some d' → d'.tz.isSome)
    ∧ (∀ env s d, parse_date env s = some d → d.tz.isSome)
    ∧ (∀ env a d, get_article_date env a = some d → d.tz.isSome)
    ∧ (∀ d, (coerce_aware d).tz.isSome) := by
  refine ⟨ensure_timezone_aware, parse_date_aware, get_article_date_aware, ?_⟩
  intro d
  unfold coerce_aware
  by_cases hd : d.tz = none
  · simp [hd]
  · cases hx : d.tz with
    | none => exact absurd hx hd
    | some o => simp [hx]

/-- Witness for C8 at a concrete input: the date resolved for the fixture
entry `e200` is timezone-aware. -/
theorem date_normalization_always_aware_witness :
    (PyDateTime.mk 200 (some 0)).tz.isSome :=
  date_normalization_always_aware.2.2.1 penvX e200 { wall := 200, tz := some 0 } (by decide)

/-- Claim C6: the too-old test is strictly exclusive at the boundary — an
article is skipped as too old exactly when its age strictly exceeds
`max_age`, where `max_age` is the configured years converted at a fixed
365 days per year (86400 seconds per day, no leap-year adjustment); an
age exactly equal to `max_age` is not too old. -/
theorem too_old_boundary_strict (y : ℚ) (now pub : PyDateTime) :
    (is_too_old y now pub = true ↔ y * 365 * 86400 < ((instVal now - instVal pub : Int) : ℚ))
    ∧ (((instVal now - instVal pub : Int) : ℚ) = y * 365 * 86400 →
        is_too_old y now pub = false) := by
  constructor
  · simp [is_too_old, max_age_seconds]
  · intro h
    simp only [is_too_old, max_age_seconds, h, decide_eq_false_iff_not]
    exact lt_irrefl _

/-- Witness for C6: five years of `max_age` is 157680000 seconds, and an
article aged exactly that much is not skipped as too old. -/
theorem too_old_boundary_strict_witness :
    is_too_old 5 { wall := 157680000, tz := some 0 } { wall := 0, tz := some 0 } = false :=
  (too_old_boundary_strict 5 _ _).2 (by norm_num [instVal])

/-- Claim C9: `get_last_pub_date` returns `None` rather than raising for a
never-seen feed (no stored item), for an unreadable state (a
`ClientError` from the table read), for a record without a stored date,
and for a stored date `fromisoformat` cannot parse. -/
theorem get_last_pub_date_fallbacks (tenv : TableEnv) (senv : StateEnv) (url : String) :
    (∀ e, tenv.get_item url = .error e → get_last_pub_date tenv senv url = none)
    ∧ (tenv.get_item url = .ok none → get_last_pub_date tenv senv url = none)
    ∧ (∀ r, tenv.get_item url = .ok (some r) → r.last_pub_date = none →
        get_last_pub_date tenv senv url = none)
    ∧ (∀ r s, tenv.get_item url = .ok (some r) → r.last_pub_date = some s → s ≠ "" →
        senv.fromIso s = none → get_last_pub_date tenv senv url = none) := by
  refine ⟨?_, ?_, ?_, ?_⟩
  · intro e he
    simp [get_last_pub_date, get_feed_state, he, state_last_pub_date]
  · intro he
    simp [get_last_pub_date, get_feed_state, he, state_last_pub_date]
  · intro r hr hl
    simp [get_last_pub_date, get_feed_state, hr, state_last_pub_date, hl]
  · intro r s hr hl hs hf
    simp [get_last_pub_date, get_feed_state, hr, state_last_pub_date, hl, hs, hf]

/-- Witness for C9: with a table read that raises a `ClientError`, the
stored mark comes back as `None`. -/
theorem get_last_pub_date_fallbacks_witness :
    get_last_pub_date tenvErr senvX "u" = none :=
  (get_last_pub_date_fallbacks tenvErr senvX "u").1 "ClientError" rfl

/-- Claim C4: `analyze_article` applies the three-way policy in order —
falsy link first (maybe, missing-link reason), then unresolvable date
(maybe, missing-date reason), then the too-old check (skip, too-old
reason), then the semantic classifier when one is configured, and
otherwise the no-analysis default. -/
theorem analyze_article_policy_order (f : ArticleFilter) (penv : ParseEnv)
    (lenv : LLMEnv) (now : PyDateTime) (a : Entry) :
    (opt_str_truthy a.link = false →
      analyze_article f penv lenv now a = ("maybe", .str "Missing required link field"))
    ∧ (opt_str_truthy a.link = true → get_article_date penv a = none →
      analyze_article f penv lenv now a = ("maybe", .str "Could not determine publication date"))
    ∧ (∀ d, opt_str_truthy a.link = true → get_article_date penv a = some d →
      is_too_old f.max_age_years now d = true →
      analyze_article f penv lenv now a =
        ("skip", .str ("Article is older than " ++ toString (max_age_days f.max_age_years) ++ " days")))
    ∧ (∀ d, opt_str_truthy a.link = true → get_article_date penv a = some d →
      is_too_old f.max_age_years now d = false →
      (f.hasClient && opt_str_truthy f.openai_model) = true →
      analyze_article f penv lenv now a = analyze_content lenv f a)
    ∧ (∀ d, opt_str_truthy a.link = true → get_article_date penv a = some d →
      is_too_old f.max_age_years now d = false →
      (f.hasClient && opt_str_truthy f.openai_model) = false →
      analyze_article f penv lenv now a = ("maybe", .str "No content analysis available")) := by
  refine ⟨?_, ?_, ?_, ?_, ?_⟩
  · intro hl
    simp [analyze_article, hl]
  · intro hl hd
    simp [analyze_article, hl, hd]
  · intro d hl hd hold
    simp [analyze_article, hl, hd, hold]
  · intro d hl hd hold hc
    simp [analyze_article, hl, hd, hold, hc]
  · intro d hl hd hold hc
    simp [analyze_article, hl, hd, hold, hc]

/-- Witness for C4: the fixture entry with no fields yields the
missing-link disposition. -/
theorem analyze_article_policy_order_witness :
    analyze_article f0 penvX lenvErr nowX a0 = ("maybe", .str "Missing required link field") :=
  (analyze_article_policy_order f0 penvX lenvErr nowX a0).1 rfl

/-- Claim C7: date resolution is first-success-wins with no merging — a
truthy, convertible time tuple determines the result regardless of any
string date field; otherwise the string fields are tried in the fixed
order `published`, `pubDate`, `created`, `createDate`, `updated`, where
an absent or empty field is skipped, a field that fails to parse is
silently skipped, the first parse success is returned, and the result is
`None` only when every field fails; each string field is parsed first as
RFC-2822 and then as ISO-8601 with `Z` rewritten to the `+00:00` UTC
offset. -/
theorem date_resolution_precedence :
    (∀ env s d, env.rfc2822 s = some d → parse_date env s = ensure_timezone (some d))
    ∧ (∀ env s d, env.rfc2822 s = none →
        env.iso (s.replace "Z" "+00:00") = some d →
        parse_date env s = ensure_timezone (some d))
    ∧ (∀ env s, env.rfc2822 s = none → env.iso (s.replace "Z" "+00:00") = none →
        parse_date env s = none)
    ∧ (∀ env a t w, a.published_parsed = some t → t ≠ [] →
        env.tupleToDt (t.take 6) = some w →
        get_article_date env a = some { wall := w, tz := some 0 })
    ∧ (∀ env a, (a.published_parsed = none ∨
          ∃ t, a.published_parsed = some t ∧ (t = [] ∨ env.tupleToDt (t.take 6) = none)) →
        get_article_date env a =
          try_date_fields env [a.published, a.pubDate, a.created, a.createDate, a.updated])
    ∧ (∀ env rest, try_date_fields env (none :: rest) = try_date_fields env rest)
    ∧ (∀ env rest, try_date_fields env (some "" :: rest) = try_date_fields env rest)
    ∧ (∀ env v rest d, v ≠ "" → parse_date env v = some d →
        try_date_fields env (some v :: rest) = some d)
    ∧ (∀ env v rest, v ≠ "" → parse_date env v = none →
        try_date_fields env (some v :: rest) = try_date_fields env rest)
    ∧ (∀ env, try_date_fields env ([] : List (Option String)) = none) := by
  refine ⟨?_, ?_, ?_, ?_, ?_, ?_, ?_, ?_, ?_, ?_⟩
  · intro env s d h
    simp [parse_date, h]
  · intro env s d h1 h2
    simp [parse_date, h1, h2]
  · intro env s h1 h2
    simp [parse_date, h1, h2]
  · intro env a t w hp ht hw
    simp [get_article_date, hp, ht, hw, ensure_timezone]
  · intro env a h
    rcases h with hp | ⟨t, hp, ht | hw⟩
    · simp [get_article_date, hp]
    · simp [get_article_date, hp, ht]
    · by_cases ht : t = []
      · simp [get_article_date, hp, ht]
      · simp [get_article_date, hp, ht, hw]
  · intro env rest
    simp [try_date_fields]
  · intro env rest
    simp [try_date_fields]
  · intro env v rest d hv hd
    simp [try_date_fields, hv, hd]
  · intro env v rest hv hd
    simp [try_date_fields, hv, hd]
  · intro env
    simp [try_date_fields]

/-- Witness for C7: on the fixture entry carrying both a convertible time
tuple and a conflicting parsable `pubDate`, the tuple wins. -/
theorem date_resolution_precedence_witness :
    get_article_date penvT entryT = some { wall := 500, tz := some 0 } :=
  date_resolution_precedence.2.2.2.1 penvT entryT [1, 2, 3, 4, 5, 6, 7] 500
    rfl (by decide) (by decide)

theorem str_append_ne_empty_left (s t : String) (h : s ≠ "") : s ++ t ≠ "" := by
  intro hc
  apply h
  have hd := congrArg String.data hc
  rw [String.data_append] at hd
  have h2 : s.data ++ t.data = ([] : List Char) := by simpa using hd
  have hs : s.data = [] := (List.append_eq_nil.mp h2).1
  exact String.ext (by simpa using hs)

/-- Claim C2: for every classifier failure mode — completion exception,
`None` message content, invalid JSON, a non-object value, a missing or
empty collection, a missing or empty reason, or a collection outside the
closed label set — the semantic classification step returns the
conservative disposition `maybe` together with a non-empty reason string,
and (being a total function of its oracles) does not raise. -/
theorem classifier_fallback_conservative (env : LLMEnv) (f : ArticleFilter) (a : Entry)
    (h : classifier_failure env f a) :
    (analyze_content env f a).1 = "maybe"
    ∧ ∃ s, (analyze_content env f a).2 = .str s ∧ s ≠ "" := by
  unfold classifier_failure at h
  unfold analyze_content
  by_cases hc : get_article_content a = ""
  · simp only [hc, if_pos rfl]
    exact ⟨rfl, "No content available for analysis", rfl, by decide⟩
  · rw [if_neg hc]
    simp only at h
    rcases h with ⟨e, he⟩ | he | ⟨raw, hraw, hrest⟩
    · simp only [he]
      exact ⟨trivial, _, rfl, str_append_ne_empty_left _ _ (by decide)⟩
    · simp only [he]
      exact ⟨trivial, _, rfl, str_append_ne_empty_left _ _ (by decide)⟩
    · simp only [hraw]
      rcases hrest with ⟨e, hj⟩ | hj | ⟨c, r, hj, hbad⟩
      · simp only [hj]
        exact ⟨trivial, _, rfl, str_append_ne_empty_left _ _ (by decide)⟩
      · simp only [hj]
        exact ⟨trivial, "Invalid response format from analysis", rfl, by decide⟩
      · simp only [hj]
        rcases hbad with hb | hb | hb
        · simp only [hb, Bool.not_false, if_pos]
          exact ⟨trivial, "Missing collection in analysis response", rfl, by decide⟩
        · by_cases hco : opt_truthy c = true
          · simp only [hco, Bool.not_true, Bool.false_eq_true, if_false, hb,
              Bool.not_false, if_pos]
            exact ⟨trivial, "Missing reason in analysis response", rfl, by decide⟩
          · simp only [Bool.not_eq_true] at hco
            simp only [hco, Bool.not_false, if_pos]
            exact ⟨trivial, "Missing collection in analysis response", rfl, by decide⟩
        · by_cases hco : opt_truthy c = true
          · by_cases hro : opt_truthy r = true
            · simp only [hco, hro, Bool.not_true, Bool.false_eq_true, if_false, hb,
                Bool.not_false, if_pos]
              exact ⟨trivial, _, rfl, str_append_ne_empty_left _ _ (by decide)⟩
            · simp only [Bool.not_eq_true] at hro
              simp only [hco, hro, Bool.not_true, Bool.false_eq_true, if_false,
                Bool.not_false, if_pos]
              exact ⟨trivial, "Missing reason in analysis response", rfl, by decide⟩
          · simp only [Bool.not_eq_true] at hco
            simp only [hco, Bool.not_false, if_pos]
            exact ⟨trivial, "Missing collection in analysis response", rfl, by decide⟩

/-- Witness for C2: a completion call that raises yields the conservative
disposition and a non-empty diagnostic reason. -/
theorem classifier_fallback_conservative_witness :
    (analyze_content lenvErr f0 a0).1 = "maybe"
    ∧ (analyze_content lenvErr f0 a0).2 = .str "Error during analysis: boom" :=
  ⟨(classifier_fallback_conservative lenvErr f0 a0 (Or.inl ⟨"boom", rfl⟩)).1, by decide⟩

/-- Claim C10: when `openai_config` is `None` or carries no `api_key`,
`ArticleFilter.__init__` leaves the model name `None` and the
unconditional tokenizer lookup on it raises, so construction fails
rather than producing a filter with content analysis disabled (the
hypothesis models `tiktoken.encoding_for_model` raising on a falsy model
name); consequently every successfully constructed filter has a client
and a truthy model name, and for such a filter an article surviving the
link, date and age checks is handed to the semantic classifier — the
no-analysis default branch is unreachable. -/
theorem filter_init_requires_model (fenv : FilterEnv) (y : ℚ) (ps : List Persona)
    (ts sc : List String) (cr : List (String × List String))
    (henc : ∀ m, opt_str_truthy m = false → ∃ e, fenv.encodingForModel m = .error e) :
    (∀ ocfg, (ocfg = none ∨ ∃ oc, ocfg = some oc ∧ oc.api_key = none) →
      ∃ e, filter_init fenv y ps ts sc cr ocfg = .error e)
    ∧ (∀ ocfg f, filter_init fenv y ps ts sc cr ocfg = .ok f →
        f.hasClient = true ∧ opt_str_truthy f.openai_model = true)
    ∧ (∀ (f : ArticleFilter) penv lenv now a d,
        f.hasClient = true → opt_str_truthy f.openai_model = true →
        opt_str_truthy a.link = true → get_article_date penv a = some d →
        is_too_old f.max_age_years now d = false →
        analyze_article f penv lenv now a = analyze_content lenv f a) := by
  refine ⟨?_, ?_, ?_⟩
  · intro ocfg h
    obtain ⟨e, he⟩ := henc none rfl
    rcases h with rfl | ⟨oc, rfl, hk⟩
    · exact ⟨e, by simp [filter_init, openai_model_of, he]⟩
    · exact ⟨e, by simp [filter_init, openai_model_of, hk, opt_str_truthy, he]⟩
  · intro ocfg f hok
    unfold filter_init at hok
    by_cases hom : opt_str_truthy (openai_model_of ocfg).2 = true
    · cases henc2 : fenv.encodingForModel (openai_model_of ocfg).2 with
      | error e =>
        rw [henc2] at hok
        exact absurd hok (by simp)
      | ok enc =>
        rw [henc2] at hok
        injection hok with hf
        subst hf
        refine ⟨?_, hom⟩
        cases ocfg with
        | none => simp [openai_model_of, opt_str_truthy] at hom
        | some oc =>
          cases hak : oc.api_key with
          | none => simp [openai_model_of, opt_str_truthy, hak] at hom
          | some k =>
            by_cases hkk : k = ""
            · subst hkk
              simp [openai_model_of, opt_str_truthy, hak] at hom
            · simp [openai_model_of, opt_str_truthy, hak, hkk]
    · simp only [Bool.not_eq_true] at hom
      obtain ⟨e, he⟩ := henc _ hom
      rw [he] at hok
      exact absurd hok (by simp)
  · intro f penv lenv now a d hc hm hl hd hold
    simp [analyze_article, hl, hd, hold, hc, hm]

/-- Witness for C10: with the fixture tokenizer lookup (failing on falsy
model names) and `openai_config = None`, construction fails. -/
theorem filter_init_requires_model_witness :
    (filter_init fenv0 1 [] [] [] [] none).isOk = false := by
  obtain ⟨e, he⟩ := (filter_init_requires_model fenv0 1 [] [] [] []
    (by
      intro m hm
      cases m with
      | none => exact ⟨"AttributeError", rfl⟩
      | some s =>
        refine ⟨"KeyError", ?_⟩
        simp only [opt_str_truthy] at hm
        have hs : s = "" := by simpa using hm
        simp [fenv0, hs])).1 none (Or.inl rfl)
  rw [he]
  rfl

theorem keep_entry_iff (env : ParseEnv) (last : Option PyDateTime) (a : Entry) :
    keep_entry env last a = true ↔
      ∃ d, get_article_date env a = some d ∧
        (last = none ∨ ∃ l, last = some l ∧ instVal l < instVal d) := by
  unfold keep_entry
  cases hd : get_article_date env a with
  | none => simp
  | some d =>
    cases last with
    | none => simp
    | some l => simp

/-- Claim C5: the diff step returns exactly the entries with a resolvable
`normalized_date` strictly newer than the (timezone-ensured) stored
high-water mark — all dated entries when no mark exists — sorted by
`normalized_date` descending; undated entries are dropped. -/
theorem get_new_articles_diff (env : ParseEnv) (entries : List Entry)
    (last : Option PyDateTime) :
    ((get_new_articles env entries last).Perm
        (entries.filter (keep_entry env (ensure_timezone last))))
    ∧ (get_new_articles env entries last).Pairwise
        (fun a b => entry_key env b ≤ entry_key env a)
    ∧ (∀ a, a ∈ get_new_articles env entries last ↔
        a ∈ entries ∧ ∃ d, get_article_date env a = some d ∧
          (ensure_timezone last = none ∨
            ∃ l, ensure_timezone last = some l ∧ instVal l < instVal d)) := by
  have hperm : (get_new_articles env entries last).Perm
      (entries.filter (keep_entry env (ensure_timezone last))) :=
    List.perm_insertionSort (newer_first env) _
  refine ⟨hperm, ?_, ?_⟩
  · haveI : IsTotal Entry (newer_first env) := ⟨fun a b => le_total _ _⟩
    haveI : IsTrans Entry (newer_first env) := ⟨fun _ _ _ h1 h2 => le_trans h2 h1⟩
    exact List.sorted_insertionSort (newer_first env) _
  · intro a
    rw [hperm.mem_iff, List.mem_filter, keep_entry_iff]

/-- Witness for C5: with no prior mark, the dated fixture entry is among
the returned new articles. -/
theorem get_new_articles_diff_witness :
    e200 ∈ get_new_articles penvX [e100, e200] none :=
  ((get_new_articles_diff penvX [e100, e200] none).2.2 e200).mpr
    ⟨by decide, { wall := 200, tz := some 0 }, by decide, Or.inl rfl⟩

/-- Claim C3: a run over one feed in which zero articles are filed (for
example every batch was all-skip with skip retention disabled) writes no
feed state at all — `last_pub_date`, `last_processed` and
`processed_count` remain exactly as before the run. -/
theorem no_filing_no_state_write (cfg : RunCfg) (renv : RunEnv) (penv : ParseEnv)
    (senv : StateEnv) (entries : List Entry) (st : Option FeedRecord) (now : PyDateTime)
    (h : (feed_run_core cfg renv penv entries (state_last_pub_date senv st)).1 = []) :
    run_feed cfg renv penv senv entries st now = st := by
  unfold run_feed process_single_feed_update
  by_cases he : entries.isEmpty = true
  · simp [he]
  · by_cases hn : (get_new_articles penv entries (state_last_pub_date senv st)).isEmpty = true
    · simp [he, hn]
    · cases hr2 : (feed_run_core cfg renv penv entries (state_last_pub_date senv st)).2 with
      | none => simp [he, hn, hr2]
      | some latest => simp [he, hn, hr2, h]

/-- Witness for C3: with skip retention disabled and every article
classified as skip, the stored record survives the run unchanged. -/
theorem no_filing_no_state_write_witness :
    run_feed cfgX renvSkip penvX senvX [e200, e100] (some rec0) nowX = some rec0 :=
  no_filing_no_state_write cfgX renvSkip penvX senvX [e200, e100] (some rec0) nowX
    (by decide)

/-- Claim C1 (evaluation at the failing input): with skip retention
disabled, a single batch holding a skip-classified article dated 200 and
a read-classified article dated 100 files exactly the article dated 100,
yet the persisted `last_pub_date` is the dropped article's instant 200 —
the source takes the batch maximum over ALL articles of a batch that
filed at least one article, not over the filed articles, contradicting
its own comment and the spec. -/
theorem high_water_mark_overshoots_on_dropped_articles :
    run_feed cfgX renvC1 penvX senvX [e200, e100] none nowX =
      some { last_pub_date := some "200", last_processed := some "999",
             processed_count := some 1 }
    ∧ (feed_run_core cfgX renvC1 penvX [e200, e100] none).1 = [e100]
    ∧ get_article_date penvX e100 = some { wall := 100, tz := some 0 }
    ∧ get_article_date penvX e200 = some { wall := 200, tz := some 0 } := by
  refine ⟨?_, by decide, by decide, by decide⟩
  decide
